import Mathlib

/-!
# Vigilon monitoring engine — shallow embedding and verification

This file embeds the monitoring and alerting core of the Vigilon service monitor
(Go sources: `internal/monitor` — SSH checker, scheduler and alert generator;
`internal/database` — the storage queries the core issues; `internal/api` — the
push-ingestion handler `handleAgentReport`) and proves properties of the embedded
operations.

Modelling conventions:
* Wall-clock instants and durations are `Int` values in seconds; `time.Since(x)`
  at instant `now` is `now - x`. The fixed 5-minute idle threshold is `300`.
* Row identifiers are `Nat`; the `nextXId` counters model SQLite autoincrement.
* Storage is a pure record of lists; every query the core issues is translated
  from the corresponding `internal/database` function. SQL column defaults that
  the code relies on (`checked_at DATETIME DEFAULT CURRENT_TIMESTAMP`,
  `created_at DATETIME DEFAULT CURRENT_TIMESTAMP`) are made explicit by passing
  `now` to the insert operations.
* The network is the environment: one remote SSH invocation is an oracle
  `String → Except String String` from the command line to either raw stdout or
  the transport error text.
* Go `float64` metric fields (`cpu_percent`) are carried verbatim by the core
  (never computed with), so they are represented by `Int` pass-through values.
-/

namespace Vigilon

/-! ## Data model (internal/models) -/

/-- `models.ServiceStatus` — the closed status vocabulary. -/
inductive ServiceStatus
  | running
  | stopped
  | failed
  | unknown
  | degraded
deriving DecidableEq, Repr

/-- `models.ConnectionStatus` — liveness classification of a host. -/
inductive ConnectionStatus
  | notConnected
  | connected
  | idle
  | disconnected
deriving DecidableEq, Repr

/-- `models.MonitoringMode` — how a host is monitored. -/
inductive MonitoringMode
  | pull
  | push
  | hybrid
deriving DecidableEq, Repr

/-- `models.Server`, restricted to the fields the monitoring core reads or
writes (SSH credential fields feed only the opaque command oracle; timestamps
`created_at`/`updated_at` and `notify_telegram` are never read by the core). -/
structure Server where
  id : Nat
  name : String
  os : String
  monitoringMode : MonitoringMode
  agentToken : String
  connectionStatus : ConnectionStatus
  enabled : Bool
  lastSeen : Option Int
deriving DecidableEq, Repr

/-- `models.Service`. -/
structure Service where
  id : Nat
  serverId : Nat
  name : String
  displayName : String
  description : String
  enabled : Bool
deriving DecidableEq, Repr

/-- A persisted `service_checks` row. `checkedAt` is the value of the
`checked_at` column, which the `INSERT` in `CreateServiceCheck` omits, so it is
always the schema default `CURRENT_TIMESTAMP` — the insert time. -/
structure ServiceCheck where
  id : Nat
  serviceId : Nat
  status : ServiceStatus
  responseTime : Int
  errorMessage : String
  checkedAt : Int
  pid : Int
  memory : Int
  cpu : Int
  uptime : Int
deriving DecidableEq, Repr

/-- An in-memory `models.ServiceCheck` as constructed by the monitor or the
ingestion handler, before persistence. The Go struct also has `ID` and
`CheckedAt` fields, but `CreateServiceCheck` assigns the id itself and its
`INSERT` omits `checked_at` (schema default = insert time), so the in-memory
`CheckedAt` is never read by any code path modelled here and is dropped. -/
structure CheckRow where
  serviceId : Nat
  status : ServiceStatus
  responseTime : Int
  errorMessage : String
  pid : Int
  memory : Int
  cpu : Int
  uptime : Int
deriving DecidableEq, Repr

/-- A persisted `alerts` row (fields written by the core; `acknowledged` /
`archived` are mutated only outside the core and default to false). -/
structure Alert where
  id : Nat
  serviceId : Nat
  serverId : Nat
  status : ServiceStatus
  message : String
  sentVia : String
  createdAt : Int
deriving DecidableEq, Repr

/-! ## Storage (internal/database) -/

/-- The storage state: the four entity tables plus autoincrement counters. -/
structure DB where
  servers : List Server
  services : List Service
  checks : List ServiceCheck
  alerts : List Alert
  nextServiceId : Nat
  nextCheckId : Nat
  nextAlertId : Nat
deriving DecidableEq, Repr

/-- `UpdateServerLastSeen`:
`UPDATE servers SET last_seen = ?, connection_status = 'connected' WHERE id = ?`
with `time.Now()` bound to the first parameter. Note that this single query
sets BOTH `last_seen` and `connection_status = 'connected'`. -/
def DB.updateServerLastSeen (db : DB) (id : Nat) (now : Int) : DB :=
  { db with servers := db.servers.map fun s =>
      if s.id = id then
        { s with lastSeen := some now, connectionStatus := ConnectionStatus.connected }
      else s }

/-- `UpdateServerConnectionStatus`:
`UPDATE servers SET connection_status = ? WHERE id = ?`. -/
def DB.updateServerConnectionStatus (db : DB) (id : Nat) (st : ConnectionStatus) : DB :=
  { db with servers := db.servers.map fun s =>
      if s.id = id then { s with connectionStatus := st } else s }

/-- `GetServicesByServer`: `SELECT ... FROM services WHERE server_id = ?`.
(The `ORDER BY name` clause only fixes the per-task iteration order, which the
spec leaves arbitrary; no claim depends on it, so the stored order is kept.) -/
def DB.getServicesByServer (db : DB) (serverId : Nat) : List Service :=
  db.services.filter fun s => s.serverId == serverId

/-- `CreateService`: insert with auto-assigned id, returning the created row
(Go writes the id back into the passed struct). -/
def DB.createService (db : DB) (serverId : Nat) (name displayName description : String)
    (enabled : Bool) : DB × Service :=
  let svc : Service :=
    { id := db.nextServiceId, serverId := serverId, name := name,
      displayName := displayName, description := description, enabled := enabled }
  ({ db with services := db.services ++ [svc], nextServiceId := db.nextServiceId + 1 }, svc)

/-- `CreateServiceCheck`: insert with auto-assigned id; the `INSERT` omits
`checked_at`, so the stored row gets the schema default — the insert time. -/
def DB.createServiceCheck (db : DB) (now : Int) (c : CheckRow) : DB :=
  let row : ServiceCheck :=
    { id := db.nextCheckId, serviceId := c.serviceId, status := c.status,
      responseTime := c.responseTime, errorMessage := c.errorMessage, checkedAt := now,
      pid := c.pid, memory := c.memory, cpu := c.cpu, uptime := c.uptime }
  { db with checks := db.checks ++ [row], nextCheckId := db.nextCheckId + 1 }

/-- `GetLatestServiceCheck`: `SELECT ... WHERE service_id = ? ORDER BY
checked_at DESC LIMIT 1`, `none` when no row exists (Go: `sql.ErrNoRows`).
SQL leaves the winner among equal timestamps unspecified; this model keeps the
later-inserted row. -/
def DB.getLatestServiceCheck (db : DB) (serviceId : Nat) : Option ServiceCheck :=
  (db.checks.filter fun c => c.serviceId == serviceId).foldl
    (fun acc c =>
      match acc with
      | none => some c
      | some b => if b.checkedAt ≤ c.checkedAt then some c else some b)
    none

/-- `CreateAlert`: insert with auto-assigned id; `created_at` takes the schema
default — the insert time. -/
def DB.createAlert (db : DB) (now : Int) (serviceId serverId : Nat) (status : ServiceStatus)
    (message sentVia : String) : DB :=
  let a : Alert :=
    { id := db.nextAlertId, serviceId := serviceId, serverId := serverId, status := status,
      message := message, sentVia := sentVia, createdAt := now }
  { db with alerts := db.alerts ++ [a], nextAlertId := db.nextAlertId + 1 }

/-! ## Push ingestion (internal/api: handleAgentReport) -/

/-- One entry of an agent batch report (`api.AgentServiceReport`). -/
structure AgentServiceReport where
  name : String
  status : ServiceStatus
  errorMessage : String
  pid : Int
  memory : Int
  cpu : Int
  uptime : Int
deriving DecidableEq, Repr

/-- An agent batch report (`api.AgentReport`). -/
structure AgentReport where
  token : String
  services : List AgentServiceReport
deriving DecidableEq, Repr

/-- HTTP outcome of the ingestion handler, as far as the core distinguishes it:
`200 OK` with the acknowledgement, or `401 {"error": "Invalid token"}`. -/
inductive ApiResponse
  | ok
  | unauthorized
deriving DecidableEq, Repr

/-- The token → host resolution loop at the top of `handleAgentReport`:
first server whose `AgentToken` equals the presented token. -/
def findServerByToken (servers : List Server) (token : String) : Option Server :=
  servers.find? fun s => s.agentToken == token

/-- The body of `handleAgentReport`'s per-entry loop: re-fetch the host's
services, look the reported name up, auto-create the service if absent
(enabled, display name = name, empty description), then insert one check row
carrying the reported status and metrics (`ResponseTime` is left at its zero
value; the in-memory `CheckedAt` is never used — see `CheckRow`). -/
def processReportEntry (serverId : Nat) (now : Int) (db : DB) (e : AgentServiceReport) : DB :=
  let found := (db.getServicesByServer serverId).find? fun s => s.name == e.name
  let firstStep : DB × Service :=
    match found with
    | some s => (db, s)
    | none => db.createService serverId e.name e.name "" true
  firstStep.1.createServiceCheck now
    { serviceId := firstStep.2.id, status := e.status, responseTime := 0,
      errorMessage := e.errorMessage, pid := e.pid, memory := e.memory,
      cpu := e.cpu, uptime := e.uptime }

/-- `handleAgentReport`: resolve the token (reject with 401 before any write if
no host matches), process each reported entry, then `UpdateServerLastSeen` —
which also sets the host's connection status to connected. -/
def handleAgentReport (db : DB) (report : AgentReport) (now : Int) : DB × ApiResponse :=
  match findServerByToken db.servers report.token with
  | none => (db, ApiResponse.unauthorized)
  | some server =>
      let db2 := report.services.foldl (processReportEntry server.id now) db
      (db2.updateServerLastSeen server.id now, ApiResponse.ok)

/-! ## Remote execution and status interpretation (internal/monitor: ssh.go) -/

/-- Outcome of one `executeSSH` invocation: raw stdout, or the transport /
command error text. The network is the environment, so it enters the model as
an oracle from the remote command line to its outcome. -/
def ExecOracle : Type := String → Except String String

/-- `monitor.ServiceInfo` — auxiliary metrics of a running service. -/
structure ServiceInfo where
  pid : Int
  memory : Int
  cpu : Int
  uptime : Int
deriving DecidableEq, Repr

/-- Stands for `getLinuxServiceInfo` / `getWindowsServiceInfo`: a chain of
further oracle invocations and lossy parses whose output feeds only the metric
fields of the check, never its status or error text. It is abstracted as an
oracle from the service name to the collected info. -/
def InfoOracle : Type := String → Option ServiceInfo

/-- Go's `strings.TrimSpace`: strip leading and trailing whitespace. (Defined
structurally on the character list so that concrete runs reduce; `String.trim`
is extensionally the same on the outputs involved here.) -/
def trimSpace (s : String) : String :=
  String.mk (((s.data.dropWhile fun c => c.isWhitespace).reverse.dropWhile
    fun c => c.isWhitespace).reverse)

/-- Go's `strings.ToLower`, character-wise (structural for the same reason). -/
def toLowerStr (s : String) : String :=
  String.mk (s.data.map Char.toLower)

/-- The `systemctl is-active` output interpretation in `checkLinuxService`
(Go `switch` on the trimmed output). -/
def linuxStatusOf (out : String) : ServiceStatus :=
  if out = "active" then ServiceStatus.running
  else if out = "inactive" then ServiceStatus.stopped
  else if out = "failed" then ServiceStatus.failed
  else if out = "activating" then ServiceStatus.degraded
  else if out = "deactivating" then ServiceStatus.degraded
  else ServiceStatus.unknown

/-- The `Get-Service` status interpretation in `checkWindowsService`
(Go `switch` on the lower-cased trimmed output). -/
def windowsStatusOf (out : String) : ServiceStatus :=
  if out = "running" then ServiceStatus.running
  else if out = "stopped" then ServiceStatus.stopped
  else if out = "paused" then ServiceStatus.degraded
  else ServiceStatus.unknown

/-- `checkLinuxService`: issue the status query; on a transport failure return
status unknown with the wrapped error (`"failed to check service: %w"`) and no
info; otherwise map the trimmed output and, when running, collect info. -/
def checkLinuxService (exec : ExecOracle) (getInfo : InfoOracle) (serviceName : String) :
    ServiceStatus × Option ServiceInfo × Option String :=
  match exec ("systemctl is-active " ++ serviceName) with
  | Except.error e => (ServiceStatus.unknown, none, some ("failed to check service: " ++ e))
  | Except.ok output =>
      let status := linuxStatusOf (trimSpace output)
      let info := if status = ServiceStatus.running then getInfo serviceName else none
      (status, info, none)

/-- `checkWindowsService`: same shape as the Linux path, PowerShell query. -/
def checkWindowsService (exec : ExecOracle) (getInfo : InfoOracle) (serviceName : String) :
    ServiceStatus × Option ServiceInfo × Option String :=
  match exec ("powershell -Command \"Get-Service -Name " ++ serviceName ++
      " | Select-Object -ExpandProperty Status\"") with
  | Except.error e => (ServiceStatus.unknown, none, some ("failed to check service: " ++ e))
  | Except.ok output =>
      let status := windowsStatusOf (toLowerStr (trimSpace output))
      let info := if status = ServiceStatus.running then getInfo serviceName else none
      (status, info, none)

/-- `SSHChecker.CheckService`: dispatch on the host's OS family (a Go string
`switch`, i.e. an equality chain). -/
def sshCheckService (exec : ExecOracle) (getInfo : InfoOracle) (server : Server)
    (serviceName : String) : ServiceStatus × Option ServiceInfo × Option String :=
  if server.os = "linux" then checkLinuxService exec getInfo serviceName
  else if server.os = "windows" then checkWindowsService exec getInfo serviceName
  else (ServiceStatus.unknown, none, some ("unsupported OS: " ++ server.os))

/-! ## Scheduler and alert generator (internal/monitor: monitor.go) -/

/-- The monitor's configuration and its process-local cooldown table
(`lastAlerts map[string]time.Time`, keyed by `"serverID:serviceID"`). -/
structure MonitorState where
  interval : Int
  alertCooldown : Int
  lastAlerts : List (String × Int)
deriving DecidableEq, Repr

/-- The cooldown key `fmt.Sprintf("%d:%d", server.ID, service.ID)`. -/
def alertKey (serverId serviceId : Nat) : String :=
  Nat.repr serverId ++ ":" ++ Nat.repr serviceId

/-- Map read `lastAlert, exists := m.lastAlerts[key]`. -/
def lookupAlert (l : List (String × Int)) (k : String) : Option Int :=
  (l.find? fun kv => kv.1 == k).map Prod.snd

/-- Map write `m.lastAlerts[key] = t`. -/
def insertAlert (l : List (String × Int)) (k : String) (t : Int) : List (String × Int) :=
  (k, t) :: (l.filter fun kv => kv.1 != k)

/-- The string `%s` renders for a `models.ServiceStatus` value. -/
def statusString : ServiceStatus → String
  | ServiceStatus.running => "running"
  | ServiceStatus.stopped => "stopped"
  | ServiceStatus.failed => "failed"
  | ServiceStatus.unknown => "unknown"
  | ServiceStatus.degraded => "degraded"

/-- The alert message built in `handleAlert`:
`"🚨 Service '%s' on server '%s' is %s"`, with `"\nError: %s"` appended when
the check carries a non-empty error text. -/
def mkAlertMessage (displayName serverName : String) (status : ServiceStatus)
    (errorMessage : String) : String :=
  let base := "🚨 Service \x27" ++ displayName ++ "\x27 on server \x27" ++ serverName ++
    "\x27 is " ++ statusString status
  if errorMessage = "" then base else base ++ "\nError: " ++ errorMessage

/-- The cooldown test in `handleAlert`:
`exists && time.Since(lastAlert) < m.alertCooldown`. -/
def inCooldown (m : MonitorState) (key : String) (now : Int) : Bool :=
  match lookupAlert m.lastAlerts key with
  | some lastAlert => decide (now - lastAlert < m.alertCooldown)
  | none => false

/-- `handleAlert`: no alert for a running status; otherwise suppress inside the
cooldown window; otherwise persist a new alert tagged `"telegram"` and record
`now` for the key — but only when the insert succeeded (`createAlertOk` is the
outcome of the storage collaborator's `CreateAlert`): on failure the handler
returns before touching the cooldown table. -/
def handleAlert (m : MonitorState) (db : DB) (server : Server) (service : Service)
    (check : CheckRow) (now : Int) (createAlertOk : Bool) : MonitorState × DB :=
  if check.status = ServiceStatus.running then (m, db)
  else if inCooldown m (alertKey server.id service.id) now then (m, db)
  else if createAlertOk then
    ({ m with lastAlerts := insertAlert m.lastAlerts (alertKey server.id service.id) now },
      db.createAlert now service.id server.id check.status
        (mkAlertMessage service.displayName server.name check.status check.errorMessage)
        "telegram")
  else (m, db)

/-- `checkServicePull`: run the SSH checker and package the outcome as a check
row. `elapsed` is the measured wall-clock latency (environment input); metric
fields stay at their zero values unless info was collected. -/
def checkServicePull (exec : ExecOracle) (getInfo : InfoOracle) (server : Server)
    (service : Service) (elapsed : Int) : CheckRow :=
  let r := sshCheckService exec getInfo server service.name
  { serviceId := service.id
    status := r.1
    responseTime := elapsed
    errorMessage := match r.2.2 with | some e => e | none => ""
    pid := match r.2.1 with | some i => i.pid | none => 0
    memory := match r.2.1 with | some i => i.memory | none => 0
    cpu := match r.2.1 with | some i => i.cpu | none => 0
    uptime := match r.2.1 with | some i => i.uptime | none => 0 }

/-- `checkServiceHybrid` — the source delegates to the pull path. -/
def checkServiceHybrid (exec : ExecOracle) (getInfo : InfoOracle) (server : Server)
    (service : Service) (elapsed : Int) : CheckRow :=
  checkServicePull exec getInfo server service elapsed

/-- `checkServicePush`: never contacts the host. Read the most recent persisted
check; with none, synthesize an unknown "No data received from agent" row; when
it is older than twice the monitor interval, synthesize an unknown
"Agent not reporting" row (the `%v`-rendered last time is modelled by `Int.repr`
of the timestamp); otherwise return nothing. -/
def checkServicePush (m : MonitorState) (db : DB) (service : Service) (now : Int) :
    Option CheckRow :=
  match db.getLatestServiceCheck service.id with
  | none =>
      some
        { serviceId := service.id, status := ServiceStatus.unknown, responseTime := 0,
          errorMessage := "No data received from agent", pid := 0, memory := 0, cpu := 0,
          uptime := 0 }
  | some lastCheck =>
      if 2 * m.interval < now - lastCheck.checkedAt then
        some
          { serviceId := service.id, status := ServiceStatus.unknown, responseTime := 0,
            errorMessage := "Agent not reporting (last seen: "
              ++ Int.repr lastCheck.checkedAt ++ ")",
            pid := 0, memory := 0, cpu := 0, uptime := 0 }
      else none

/-- The body of `checkServer`'s per-service loop: skip disabled services; pick
the mode's check path; when it yielded a row, persist it (`CreateServiceCheck`)
and feed it to the alert generator. Alert persistence is taken as succeeding
here; `handleAlert`'s failure branch is analysed separately. -/
def checkOneService (exec : ExecOracle) (getInfo : InfoOracle) (server : Server)
    (now elapsed : Int) (md : MonitorState × DB) (service : Service) : MonitorState × DB :=
  if !service.enabled then md
  else
    let result : Option CheckRow :=
      match server.monitoringMode with
      | MonitoringMode.pull => some (checkServicePull exec getInfo server service elapsed)
      | MonitoringMode.push => checkServicePush md.1 md.2 service now
      | MonitoringMode.hybrid => some (checkServiceHybrid exec getInfo server service elapsed)
    match result with
    | none => md
    | some check =>
        handleAlert md.1 (md.2.createServiceCheck now check) server service check now true

/-- `checkServer` — one dispatched per-host check task: fetch the host's
services once, run the per-service loop, then `UpdateServerLastSeen`
unconditionally (which also sets the connection status to connected). -/
def checkServer (exec : ExecOracle) (getInfo : InfoOracle) (m : MonitorState) (db : DB)
    (server : Server) (now elapsed : Int) : MonitorState × DB :=
  let services := db.getServicesByServer server.id
  let r := services.foldl (checkOneService exec getInfo server now elapsed) (m, db)
  (r.1, r.2.updateServerLastSeen server.id now)

/-- The fixed idle threshold (`idleThreshold := 5 * time.Minute`), in seconds. -/
def idleThreshold : Int := 5 * 60

/-- `checkIdleStatus`: only push-mode hosts currently connected and with a
recorded last-seen older than the threshold are marked idle. -/
def checkIdleStatus (db : DB) (server : Server) (now : Int) : DB :=
  if server.monitoringMode ≠ MonitoringMode.push ∨
      server.connectionStatus ≠ ConnectionStatus.connected then db
  else
    match server.lastSeen with
    | some t =>
        if idleThreshold < now - t then
          db.updateServerConnectionStatus server.id ConnectionStatus.idle
        else db
    | none => db

/-- The body of `checkAllServers`'s per-host loop: run the idle rule for every
host, then dispatch the check task only for enabled hosts. (The Go task runs in
a worker-pool goroutine; per host the idle rule precedes the task in program
order, and distinct hosts touch disjoint server rows, so the sequential
composition is the per-host semantics.) -/
def tickHost (exec : ExecOracle) (getInfo : InfoOracle) (now elapsed : Int)
    (md : MonitorState × DB) (server : Server) : MonitorState × DB :=
  let db2 := checkIdleStatus md.2 server now
  if !server.enabled then (md.1, db2)
  else checkServer exec getInfo md.1 db2 server now elapsed

/-- `checkAllServers` — one scheduler tick: iterate over the server list as
fetched at the start of the tick. -/
def tick (exec : ExecOracle) (getInfo : InfoOracle) (m : MonitorState) (db : DB)
    (now elapsed : Int) : MonitorState × DB :=
  db.servers.foldl (tickHost exec getInfo now elapsed) (m, db)

/-! ## Frame lemmas

Which tables each storage operation leaves untouched, and which parts of the
monitor state each step preserves. -/

@[simp] theorem updateServerLastSeen_services (db : DB) (id : Nat) (now : Int) :
    (db.updateServerLastSeen id now).services = db.services := rfl

@[simp] theorem updateServerLastSeen_checks (db : DB) (id : Nat) (now : Int) :
    (db.updateServerLastSeen id now).checks = db.checks := rfl

@[simp] theorem updateServerLastSeen_alerts (db : DB) (id : Nat) (now : Int) :
    (db.updateServerLastSeen id now).alerts = db.alerts := rfl

@[simp] theorem updateServerLastSeen_servers (db : DB) (id : Nat) (now : Int) :
    (db.updateServerLastSeen id now).servers = db.servers.map fun s =>
      if s.id = id then
        { s with lastSeen := some now, connectionStatus := ConnectionStatus.connected }
      else s := rfl

@[simp] theorem updateServerConnectionStatus_services (db : DB) (id : Nat)
    (st : ConnectionStatus) :
    (db.updateServerConnectionStatus id st).services = db.services := rfl

@[simp] theorem updateServerConnectionStatus_checks (db : DB) (id : Nat)
    (st : ConnectionStatus) :
    (db.updateServerConnectionStatus id st).checks = db.checks := rfl

@[simp] theorem updateServerConnectionStatus_alerts (db : DB) (id : Nat)
    (st : ConnectionStatus) :
    (db.updateServerConnectionStatus id st).alerts = db.alerts := rfl

@[simp] theorem createService_servers (db : DB) (sid : Nat) (n d de : String) (en : Bool) :
    (db.createService sid n d de en).1.servers = db.servers := rfl

@[simp] theorem createService_checks (db : DB) (sid : Nat) (n d de : String) (en : Bool) :
    (db.createService sid n d de en).1.checks = db.checks := rfl

@[simp] theorem createService_alerts (db : DB) (sid : Nat) (n d de : String) (en : Bool) :
    (db.createService sid n d de en).1.alerts = db.alerts := rfl

@[simp] theorem createServiceCheck_servers (db : DB) (now : Int) (c : CheckRow) :
    (db.createServiceCheck now c).servers = db.servers := rfl

@[simp] theorem createServiceCheck_services (db : DB) (now : Int) (c : CheckRow) :
    (db.createServiceCheck now c).services = db.services := rfl

@[simp] theorem createServiceCheck_alerts (db : DB) (now : Int) (c : CheckRow) :
    (db.createServiceCheck now c).alerts = db.alerts := rfl

@[simp] theorem createServiceCheck_checks (db : DB) (now : Int) (c : CheckRow) :
    (db.createServiceCheck now c).checks = db.checks ++
      [{ id := db.nextCheckId, serviceId := c.serviceId, status := c.status,
         responseTime := c.responseTime, errorMessage := c.errorMessage, checkedAt := now,
         pid := c.pid, memory := c.memory, cpu := c.cpu, uptime := c.uptime }] := rfl

@[simp] theorem createAlert_servers (db : DB) (now : Int) (sid hid : Nat)
    (st : ServiceStatus) (msg via : String) :
    (db.createAlert now sid hid st msg via).servers = db.servers := rfl

@[simp] theorem createAlert_services (db : DB) (now : Int) (sid hid : Nat)
    (st : ServiceStatus) (msg via : String) :
    (db.createAlert now sid hid st msg via).services = db.services := rfl

@[simp] theorem createAlert_checks (db : DB) (now : Int) (sid hid : Nat)
    (st : ServiceStatus) (msg via : String) :
    (db.createAlert now sid hid st msg via).checks = db.checks := rfl

@[simp] theorem createAlert_alerts (db : DB) (now : Int) (sid hid : Nat)
    (st : ServiceStatus) (msg via : String) :
    (db.createAlert now sid hid st msg via).alerts = db.alerts ++
      [{ id := db.nextAlertId, serviceId := sid, serverId := hid, status := st,
         message := msg, sentVia := via, createdAt := now }] := rfl

theorem handleAlert_servers (m : MonitorState) (db : DB) (sv : Server) (svc : Service)
    (c : CheckRow) (now : Int) (ok : Bool) :
    (handleAlert m db sv svc c now ok).2.servers = db.servers := by
  unfold handleAlert
  split
  · rfl
  · split
    · rfl
    · split
      · simp
      · rfl

theorem handleAlert_services (m : MonitorState) (db : DB) (sv : Server) (svc : Service)
    (c : CheckRow) (now : Int) (ok : Bool) :
    (handleAlert m db sv svc c now ok).2.services = db.services := by
  unfold handleAlert
  split
  · rfl
  · split
    · rfl
    · split
      · simp
      · rfl

theorem handleAlert_checks (m : MonitorState) (db : DB) (sv : Server) (svc : Service)
    (c : CheckRow) (now : Int) (ok : Bool) :
    (handleAlert m db sv svc c now ok).2.checks = db.checks := by
  unfold handleAlert
  split
  · rfl
  · split
    · rfl
    · split
      · simp
      · rfl

theorem handleAlert_interval (m : MonitorState) (db : DB) (sv : Server) (svc : Service)
    (c : CheckRow) (now : Int) (ok : Bool) :
    (handleAlert m db sv svc c now ok).1.interval = m.interval := by
  unfold handleAlert
  split
  · rfl
  · split
    · rfl
    · split
      · rfl
      · rfl

theorem handleAlert_alertCooldown (m : MonitorState) (db : DB) (sv : Server) (svc : Service)
    (c : CheckRow) (now : Int) (ok : Bool) :
    (handleAlert m db sv svc c now ok).1.alertCooldown = m.alertCooldown := by
  unfold handleAlert
  split
  · rfl
  · split
    · rfl
    · split
      · rfl
      · rfl

theorem processReportEntry_servers (sid : Nat) (now : Int) (db : DB)
    (e : AgentServiceReport) :
    (processReportEntry sid now db e).servers = db.servers := by
  unfold processReportEntry
  dsimp only
  split <;> simp

theorem processReportEntry_alerts (sid : Nat) (now : Int) (db : DB)
    (e : AgentServiceReport) :
    (processReportEntry sid now db e).alerts = db.alerts := by
  unfold processReportEntry
  dsimp only
  split <;> simp

theorem foldl_processReportEntry_servers (sid : Nat) (now : Int)
    (l : List AgentServiceReport) :
    ∀ db : DB, (l.foldl (processReportEntry sid now) db).servers = db.servers := by
  induction l with
  | nil => intro db; rfl
  | cons e es ih =>
      intro db
      rw [List.foldl_cons, ih, processReportEntry_servers]

theorem checkOneService_servers (exec : ExecOracle) (gi : InfoOracle) (sv : Server)
    (now elapsed : Int) (md : MonitorState × DB) (svc : Service) :
    (checkOneService exec gi sv now elapsed md svc).2.servers = md.2.servers := by
  unfold checkOneService
  dsimp only
  split
  · rfl
  · split
    · rfl
    · rw [handleAlert_servers, createServiceCheck_servers]

theorem foldl_checkOneService_servers (exec : ExecOracle) (gi : InfoOracle) (sv : Server)
    (now elapsed : Int) (l : List Service) :
    ∀ md : MonitorState × DB,
      (l.foldl (checkOneService exec gi sv now elapsed) md).2.servers = md.2.servers := by
  induction l with
  | nil => intro md; rfl
  | cons svc svcs ih =>
      intro md
      rw [List.foldl_cons, ih, checkOneService_servers]

/-- The per-host check task rewrites exactly the checked host's server row:
`last_seen := now` and `connection_status := connected`, whatever the host's
monitoring mode is. -/
theorem checkServer_servers (exec : ExecOracle) (gi : InfoOracle) (m : MonitorState)
    (db : DB) (server : Server) (now elapsed : Int) :
    (checkServer exec gi m db server now elapsed).2.servers = db.servers.map fun s =>
      if s.id = server.id then
        { s with lastSeen := some now, connectionStatus := ConnectionStatus.connected }
      else s := by
  unfold checkServer
  rw [updateServerLastSeen_servers, foldl_checkOneService_servers]

/-- Successful ingestion rewrites exactly the reporting host's server row:
`last_seen := now` and `connection_status := connected`. -/
theorem handleAgentReport_servers (db : DB) (report : AgentReport) (now : Int)
    (server : Server) (h : findServerByToken db.servers report.token = some server) :
    (handleAgentReport db report now).1.servers = db.servers.map fun s =>
      if s.id = server.id then
        { s with lastSeen := some now, connectionStatus := ConnectionStatus.connected }
      else s := by
  unfold handleAgentReport
  rw [h]
  show (DB.updateServerLastSeen _ _ _).servers = _
  rw [updateServerLastSeen_servers, foldl_processReportEntry_servers]

/-! ## Concrete fixtures

Small concrete states used by counterexamples and witnesses. -/

/-- An SSH oracle for runs that must not touch the network. -/
def execUnused : ExecOracle := fun _ => Except.error "unreachable"

/-- An info oracle collecting nothing. -/
def infoUnused : InfoOracle := fun _ => none

/-- A monitor configured with a 30s interval and a 300s cooldown. -/
def mFix : MonitorState := { interval := 30, alertCooldown := 300, lastAlerts := [] }

/-! ## Claim C6 -/

/-- C6: a push ingestion request whose token matches no host is rejected with
an authentication error, and no storage write of any kind occurs — the
returned state is exactly the input state. -/
theorem unknownToken_rejected_before_any_write (db : DB) (report : AgentReport) (now : Int)
    (h : findServerByToken db.servers report.token = none) :
    handleAgentReport db report now = (db, ApiResponse.unauthorized) := by
  unfold handleAgentReport
  rw [h]

def srvC6 : Server :=
  { id := 1, name := "web-1", os := "linux", monitoringMode := MonitoringMode.push,
    agentToken := "tok-a", connectionStatus := ConnectionStatus.connected, enabled := true,
    lastSeen := some 0 }

def dbC6 : DB :=
  { servers := [srvC6], services := [], checks := [], alerts := [],
    nextServiceId := 1, nextCheckId := 1, nextAlertId := 1 }

/-- C6 witness: a concrete report with an unknown token is rejected and the
state is untouched. -/
def reportC6 : AgentReport :=
  { token := "tok-b",
    services := [{ name := "nginx", status := ServiceStatus.failed, errorMessage := "",
                   pid := 0, memory := 0, cpu := 0, uptime := 0 }] }

theorem unknownToken_rejected_before_any_write_witness :
    handleAgentReport dbC6 reportC6 50 = (dbC6, ApiResponse.unauthorized) :=
  unknownToken_rejected_before_any_write dbC6 reportC6 50 (by decide)

/-! ## Claim C1 -/

def srvC1 : Server :=
  { id := 7, name := "push-host", os := "linux", monitoringMode := MonitoringMode.push,
    agentToken := "t7", connectionStatus := ConnectionStatus.idle, enabled := true,
    lastSeen := some 0 }

def dbC1 : DB :=
  { servers := [srvC1], services := [], checks := [], alerts := [],
    nextServiceId := 1, nextCheckId := 1, nextAlertId := 1 }

/-- C1 counterexample: the claim's "only path" part is false. The scheduler's
per-host check task — with no ingestion request involved — moves an idle
push-mode host back to connected, because `checkServer` ends with
`UpdateServerLastSeen`, whose query also sets `connection_status='connected'`. -/
theorem checkTask_moves_idle_host_to_connected :
    srvC1.connectionStatus = ConnectionStatus.idle ∧
    ((checkServer execUnused infoUnused mFix dbC1 srvC1 1000 0).2.servers.map
        Server.connectionStatus) = [ConnectionStatus.connected] := by
  exact ⟨rfl, by decide⟩

/-- C1 (amended): a successful push ingestion request updates the host's
last_seen to now and sets its connection status to connected — but this is not
the only operation doing so: the scheduler's per-host check task performs the
same update (see the counterexample). -/
theorem pushIngestion_sets_lastSeen_connected (db : DB) (report : AgentReport) (now : Int)
    (server : Server) (h : findServerByToken db.servers report.token = some server) :
    (handleAgentReport db report now).2 = ApiResponse.ok ∧
    (handleAgentReport db report now).1.servers = db.servers.map fun s =>
      if s.id = server.id then
        { s with lastSeen := some now, connectionStatus := ConnectionStatus.connected }
      else s := by
  refine ⟨?_, handleAgentReport_servers db report now server h⟩
  unfold handleAgentReport
  rw [h]

def srvC1b : Server :=
  { id := 4, name := "agent-host", os := "linux", monitoringMode := MonitoringMode.push,
    agentToken := "t4", connectionStatus := ConnectionStatus.disconnected, enabled := true,
    lastSeen := none }

def dbC1b : DB :=
  { servers := [srvC1b], services := [], checks := [], alerts := [],
    nextServiceId := 1, nextCheckId := 1, nextAlertId := 1 }

/-- C1 witness: a concrete authenticated empty report is acknowledged and
rewrites the host row to connected with last_seen = now. -/
theorem pushIngestion_sets_lastSeen_connected_witness :
    (handleAgentReport dbC1b { token := "t4", services := [] } 90).2 = ApiResponse.ok ∧
    (handleAgentReport dbC1b { token := "t4", services := [] } 90).1.servers =
      dbC1b.servers.map fun s =>
        if s.id = srvC1b.id then
          { s with lastSeen := some (90 : Int),
                   connectionStatus := ConnectionStatus.connected }
        else s :=
  pushIngestion_sets_lastSeen_connected dbC1b _ 90 srvC1b (by decide)

/-! ## Claim C4 -/

def srvC4 : Server :=
  { id := 3, name := "push-only", os := "linux", monitoringMode := MonitoringMode.push,
    agentToken := "t3", connectionStatus := ConnectionStatus.notConnected, enabled := true,
    lastSeen := none }

def dbC4 : DB :=
  { servers := [srvC4], services := [], checks := [], alerts := [],
    nextServiceId := 1, nextCheckId := 1, nextAlertId := 1 }

/-- C4 counterexample: the claim says a push host's last_seen is never changed
by the scheduler's per-host check task; yet the task sets this push host's
last_seen from none to the tick time. -/
theorem checkTask_changes_push_lastSeen :
    srvC4.monitoringMode = MonitoringMode.push ∧ srvC4.lastSeen = none ∧
    ((checkServer execUnused infoUnused mFix dbC4 srvC4 500 0).2.servers.map
        Server.lastSeen) = [some 500] := by
  exact ⟨rfl, rfl, by decide⟩

/-- C4 (amended): the per-host check task ends by setting its host's last_seen
to now (and connection status to connected) for EVERY monitoring mode — push
hosts included — while all other server rows are untouched. -/
theorem checkTask_updates_lastSeen_every_mode (exec : ExecOracle) (gi : InfoOracle)
    (m : MonitorState) (db : DB) (server : Server) (now elapsed : Int) :
    (checkServer exec gi m db server now elapsed).2.servers = db.servers.map fun s =>
      if s.id = server.id then
        { s with lastSeen := some now, connectionStatus := ConnectionStatus.connected }
      else s :=
  checkServer_servers exec gi m db server now elapsed

/-! ## Claim C5 -/

/-- The end-of-task last-seen update absorbs whatever the idle rule did to the
same host's row moments earlier: it overwrites the one field the idle rule can
change. -/
theorem idle_then_lastSeen_update (db : DB) (server : Server) (now now2 : Int) :
    ((checkIdleStatus db server now).servers.map fun s =>
      if s.id = server.id then
        { s with lastSeen := some now2, connectionStatus := ConnectionStatus.connected }
      else s)
    = db.servers.map fun s =>
      if s.id = server.id then
        { s with lastSeen := some now2, connectionStatus := ConnectionStatus.connected }
      else s := by
  unfold checkIdleStatus
  split
  · rfl
  · split
    · split
      · unfold DB.updateServerConnectionStatus
        rw [List.map_map]
        apply List.map_congr_left
        intro s _
        by_cases h : s.id = server.id
        · simp [h]
        · simp [h]
      · rfl
    · rfl

/-- C5 (amended): on a tick the idle rule runs for every host before its
dispatch, regardless of the enabled flag: (a) a connected push host whose
last_seen is over the 5-minute threshold old is set to idle; (b) for a
disabled host this is the tick's whole per-host effect, so the idle status
stands; (c) for an ENABLED host the same tick's dispatched check task then
resets the row to connected with last_seen = now, so — correcting the claim —
the idle status does not survive the tick; (d) a subsequent authenticated
report (also) leaves the host connected. -/
theorem idleRule_and_tick_effects (exec : ExecOracle) (gi : InfoOracle) (m : MonitorState)
    (db : DB) (server : Server) (now elapsed : Int) :
    (∀ t : Int, server.monitoringMode = MonitoringMode.push →
      server.connectionStatus = ConnectionStatus.connected →
      server.lastSeen = some t → idleThreshold < now - t →
      (checkIdleStatus db server now).servers = db.servers.map fun s =>
        if s.id = server.id then { s with connectionStatus := ConnectionStatus.idle }
        else s) ∧
    (server.enabled = false →
      tickHost exec gi now elapsed (m, db) server = (m, checkIdleStatus db server now)) ∧
    (server.enabled = true →
      (tickHost exec gi now elapsed (m, db) server).2.servers = db.servers.map fun s =>
        if s.id = server.id then
          { s with lastSeen := some now, connectionStatus := ConnectionStatus.connected }
        else s) ∧
    (∀ (db2 : DB) (report : AgentReport) (now2 : Int),
      findServerByToken db2.servers report.token = some server →
      (handleAgentReport db2 report now2).1.servers = db2.servers.map fun s =>
        if s.id = server.id then
          { s with lastSeen := some now2, connectionStatus := ConnectionStatus.connected }
        else s) := by
  refine ⟨?_, ?_, ?_, ?_⟩
  · intro t hm hc hls hst
    unfold checkIdleStatus
    rw [if_neg (by simp [hm, hc]), hls]
    dsimp only
    rw [if_pos hst]
    rfl
  · intro h
    unfold tickHost
    simp [h]
  · intro h
    unfold tickHost
    dsimp only
    rw [h]
    show (checkServer exec gi m (checkIdleStatus db server now) server now elapsed).2.servers
      = _
    rw [checkServer_servers, idle_then_lastSeen_update]
  · intro db2 report now2 h
    exact handleAgentReport_servers db2 report now2 server h

def srvC5 : Server :=
  { id := 9, name := "stale-push", os := "linux", monitoringMode := MonitoringMode.push,
    agentToken := "t9", connectionStatus := ConnectionStatus.connected, enabled := true,
    lastSeen := some 0 }

def dbC5 : DB :=
  { servers := [srvC5], services := [], checks := [], alerts := [],
    nextServiceId := 1, nextCheckId := 1, nextAlertId := 1 }

/-- C5 counterexample: an ENABLED connected push-mode host whose last report
is 1000s old (well past the 5-minute threshold) does NOT end the tick idle, as
the claim requires — the dispatched check task's final last-seen update puts
it back to connected within the same tick. -/
theorem staleEnabledPushHost_connected_after_tick :
    srvC5.monitoringMode = MonitoringMode.push ∧
    srvC5.connectionStatus = ConnectionStatus.connected ∧
    srvC5.enabled = true ∧
    idleThreshold < (1000 : Int) - 0 ∧
    ((tick execUnused infoUnused mFix dbC5 1000 0).2.servers.map Server.connectionStatus)
      = [ConnectionStatus.connected] :=
  ⟨rfl, rfl, rfl, by decide, by decide⟩

def srvC5b : Server :=
  { id := 10, name := "stale-push-disabled", os := "linux",
    monitoringMode := MonitoringMode.push, agentToken := "t10",
    connectionStatus := ConnectionStatus.connected, enabled := false, lastSeen := some 0 }

def dbC5b : DB :=
  { servers := [srvC5b], services := [], checks := [], alerts := [],
    nextServiceId := 1, nextCheckId := 1, nextAlertId := 1 }

/-- C5 witness: for a concrete disabled stale connected push host, the idle
rule fires and the per-host tick step is exactly the idle rule. -/
theorem idleRule_and_tick_effects_witness :
    ((checkIdleStatus dbC5b srvC5b 1000).servers = dbC5b.servers.map fun s =>
      if s.id = srvC5b.id then { s with connectionStatus := ConnectionStatus.idle }
      else s) ∧
    tickHost execUnused infoUnused 1000 0 (mFix, dbC5b) srvC5b
      = (mFix, checkIdleStatus dbC5b srvC5b 1000) :=
  ⟨(idleRule_and_tick_effects execUnused infoUnused mFix dbC5b srvC5b 1000 0).1 0 rfl rfl
      rfl (by decide),
   (idleRule_and_tick_effects execUnused infoUnused mFix dbC5b srvC5b 1000 0).2.1 rfl⟩

/-! ## Claim C2 -/

/-- The row `checkServicePush` synthesizes when no check exists yet. -/
def noDataRow (serviceId : Nat) : CheckRow :=
  { serviceId := serviceId, status := ServiceStatus.unknown, responseTime := 0,
    errorMessage := "No data received from agent", pid := 0, memory := 0, cpu := 0,
    uptime := 0 }

/-- The row `checkServicePush` synthesizes when the latest check is stale. -/
def staleRow (serviceId : Nat) (lastAt : Int) : CheckRow :=
  { serviceId := serviceId, status := ServiceStatus.unknown, responseTime := 0,
    errorMessage := "Agent not reporting (last seen: " ++ Int.repr lastAt ++ ")",
    pid := 0, memory := 0, cpu := 0, uptime := 0 }

/-- C2: for an enabled service of a push-mode host, the scheduler's
per-service step (1) never contacts the remote host — it is independent of
the SSH and info oracles; (2) with no persisted check, persists a synthesized
unknown "No data received from agent" check and feeds it to the alert
generator; (3) with a latest check older than twice the monitor interval,
persists a synthesized unknown "Agent not reporting" check and feeds it to
the alert generator; (4) otherwise changes nothing — no new check, no alert. -/
theorem pushTick_service_cases (exec : ExecOracle) (gi : InfoOracle) (server : Server)
    (service : Service) (m : MonitorState) (db : DB) (now elapsed : Int)
    (hmode : server.monitoringMode = MonitoringMode.push)
    (hen : service.enabled = true) :
    (∀ (exec2 : ExecOracle) (gi2 : InfoOracle),
      checkOneService exec gi server now elapsed (m, db) service
        = checkOneService exec2 gi2 server now elapsed (m, db) service) ∧
    (db.getLatestServiceCheck service.id = none →
      checkOneService exec gi server now elapsed (m, db) service
        = handleAlert m (db.createServiceCheck now (noDataRow service.id)) server service
            (noDataRow service.id) now true ∧
      (checkOneService exec gi server now elapsed (m, db) service).2.checks
        = db.checks ++
            [{ id := db.nextCheckId, serviceId := service.id,
               status := ServiceStatus.unknown, responseTime := 0,
               errorMessage := "No data received from agent", checkedAt := now,
               pid := 0, memory := 0, cpu := 0, uptime := 0 }]) ∧
    (∀ lc : ServiceCheck, db.getLatestServiceCheck service.id = some lc →
      2 * m.interval < now - lc.checkedAt →
      checkOneService exec gi server now elapsed (m, db) service
        = handleAlert m (db.createServiceCheck now (staleRow service.id lc.checkedAt))
            server service (staleRow service.id lc.checkedAt) now true ∧
      (checkOneService exec gi server now elapsed (m, db) service).2.checks
        = db.checks ++
            [{ id := db.nextCheckId, serviceId := service.id,
               status := ServiceStatus.unknown, responseTime := 0,
               errorMessage := "Agent not reporting (last seen: "
                 ++ Int.repr lc.checkedAt ++ ")",
               checkedAt := now, pid := 0, memory := 0, cpu := 0, uptime := 0 }]) ∧
    (∀ lc : ServiceCheck, db.getLatestServiceCheck service.id = some lc →
      ¬(2 * m.interval < now - lc.checkedAt) →
      checkOneService exec gi server now elapsed (m, db) service = (m, db)) := by
  have hb : (!service.enabled) = false := by rw [hen]; rfl
  refine ⟨?_, ?_, ?_, ?_⟩
  · intro exec2 gi2
    simp only [checkOneService, hmode, hb, Bool.false_eq_true, if_false]
  · intro hnone
    have e : checkOneService exec gi server now elapsed (m, db) service
        = handleAlert m (db.createServiceCheck now (noDataRow service.id)) server service
            (noDataRow service.id) now true := by
      simp only [checkOneService, hmode, hb, Bool.false_eq_true, if_false]
      unfold checkServicePush
      rw [hnone]
      rfl
    refine ⟨e, ?_⟩
    rw [e, handleAlert_checks, createServiceCheck_checks]
    rfl
  · intro lc hsome hstale
    have e : checkOneService exec gi server now elapsed (m, db) service
        = handleAlert m (db.createServiceCheck now (staleRow service.id lc.checkedAt))
            server service (staleRow service.id lc.checkedAt) now true := by
      simp only [checkOneService, hmode, hb, Bool.false_eq_true, if_false]
      unfold checkServicePush
      rw [hsome]
      dsimp only
      rw [if_pos hstale]
      rfl
    refine ⟨e, ?_⟩
    rw [e, handleAlert_checks, createServiceCheck_checks]
    rfl
  · intro lc hsome hfresh
    simp only [checkOneService, hmode, hb, Bool.false_eq_true, if_false]
    unfold checkServicePush
    rw [hsome]
    dsimp only
    rw [if_neg hfresh]

def srvC2 : Server :=
  { id := 11, name := "push-h", os := "linux", monitoringMode := MonitoringMode.push,
    agentToken := "t11", connectionStatus := ConnectionStatus.connected, enabled := true,
    lastSeen := some 0 }

def svcC2 : Service :=
  { id := 21, serverId := 11, name := "redis", displayName := "Redis", description := "",
    enabled := true }

def dbC2 : DB :=
  { servers := [srvC2], services := [svcC2], checks := [], alerts := [],
    nextServiceId := 22, nextCheckId := 1, nextAlertId := 1 }

/-- C2 witness: with no persisted check yet, the concrete push-mode tick step
persists exactly the synthesized "No data received from agent" unknown row. -/
theorem pushTick_service_cases_witness :
    (checkOneService execUnused infoUnused srvC2 100 0 (mFix, dbC2) svcC2).2.checks
      = dbC2.checks ++
          [{ id := dbC2.nextCheckId, serviceId := svcC2.id,
             status := ServiceStatus.unknown, responseTime := 0,
             errorMessage := "No data received from agent", checkedAt := 100,
             pid := 0, memory := 0, cpu := 0, uptime := 0 }] :=
  ((pushTick_service_cases execUnused infoUnused srvC2 svcC2 mFix dbC2 100 0 rfl
      rfl).2.1 (by decide)).2

/-! ## Alert generator: shared lemmas -/

theorem str_append_assoc (a b c : String) : a ++ b ++ c = a ++ (b ++ c) := by
  apply String.ext
  simp [String.data_append, List.append_assoc]

theorem str_append_empty (a : String) : a ++ "" = a := by
  apply String.ext
  simp [String.data_append]

/-- A spacing hypothesis on the cooldown table turns the cooldown test off. -/
theorem inCooldown_false_of_spaced (m : MonitorState) (key : String) (now : Int)
    (h : ∀ t : Int, lookupAlert m.lastAlerts key = some t → m.alertCooldown ≤ now - t) :
    inCooldown m key now = false := by
  unfold inCooldown
  cases hl : lookupAlert m.lastAlerts key with
  | none => rfl
  | some t =>
      simp only [decide_eq_false_iff_not, not_lt]
      exact h t hl

theorem lookupAlert_insert_self (l : List (String × Int)) (k : String) (t : Int) :
    lookupAlert (insertAlert l k t) k = some t := by
  simp [lookupAlert, insertAlert]

/-- With a non-running status and the cooldown test off, the alert generator
fires: persist plus cooldown-table write on success; untouched state when the
storage insert fails. -/
theorem handleAlert_fires (m : MonitorState) (db : DB) (server : Server) (service : Service)
    (check : CheckRow) (now : Int)
    (hne : check.status ≠ ServiceStatus.running)
    (hcool : inCooldown m (alertKey server.id service.id) now = false) :
    handleAlert m db server service check now true
      = ({ m with
            lastAlerts := insertAlert m.lastAlerts (alertKey server.id service.id) now },
         db.createAlert now service.id server.id check.status
           (mkAlertMessage service.displayName server.name check.status check.errorMessage)
           "telegram") ∧
    handleAlert m db server service check now false = (m, db) := by
  refine ⟨?_, ?_⟩ <;>
    · unfold handleAlert
      rw [if_neg hne]
      simp [hcool]

/-- The alert message embeds the display name, the host name, the rendered
status, and — when non-empty — the check's error text. -/
theorem mkAlertMessage_embeds (dn sn : String) (st : ServiceStatus) (err : String) :
    (∃ p q, mkAlertMessage dn sn st err = p ++ (dn ++ q)) ∧
    (∃ p q, mkAlertMessage dn sn st err = p ++ (sn ++ q)) ∧
    (∃ p q, mkAlertMessage dn sn st err = p ++ (statusString st ++ q)) ∧
    (err ≠ "" → ∃ p, mkAlertMessage dn sn st err = p ++ err) := by
  by_cases h : err = ""
  · subst h
    refine
      ⟨⟨"🚨 Service \x27",
        "\x27 on server \x27" ++ (sn ++ ("\x27 is " ++ statusString st)), ?_⟩,
       ⟨"🚨 Service \x27" ++ (dn ++ "\x27 on server \x27"),
        "\x27 is " ++ statusString st, ?_⟩,
       ⟨"🚨 Service \x27" ++ (dn ++ ("\x27 on server \x27" ++ (sn ++ "\x27 is "))),
        "", ?_⟩,
       fun hne => absurd rfl hne⟩
    all_goals simp [mkAlertMessage, str_append_assoc, str_append_empty]
  · refine
      ⟨⟨"🚨 Service \x27",
        "\x27 on server \x27" ++
          (sn ++ ("\x27 is " ++ (statusString st ++ ("\nError: " ++ err)))), ?_⟩,
       ⟨"🚨 Service \x27" ++ (dn ++ "\x27 on server \x27"),
        "\x27 is " ++ (statusString st ++ ("\nError: " ++ err)), ?_⟩,
       ⟨"🚨 Service \x27" ++ (dn ++ ("\x27 on server \x27" ++ (sn ++ "\x27 is "))),
        "\nError: " ++ err, ?_⟩,
       fun _ =>
        ⟨"🚨 Service \x27" ++
           (dn ++ ("\x27 on server \x27" ++ (sn ++ ("\x27 is " ++
             (statusString st ++ "\nError: "))))), ?_⟩⟩
    all_goals simp [mkAlertMessage, h, str_append_assoc]

/-! ## Claim C8 -/

/-- C8: a running check produces no alert and changes nothing at all; a
non-running check outside the cooldown window persists exactly one alert whose
message embeds the service display name, the host name, the status and (when
non-empty) the error text, tagged with the fixed "telegram" channel label, and
records now as the key's new last-alert time. -/
theorem alertGenerator_cases (m : MonitorState) (db : DB) (server : Server)
    (service : Service) (check : CheckRow) (now : Int) :
    (check.status = ServiceStatus.running →
      ∀ ok : Bool, handleAlert m db server service check now ok = (m, db)) ∧
    (check.status ≠ ServiceStatus.running →
      (∀ t : Int, lookupAlert m.lastAlerts (alertKey server.id service.id) = some t →
        m.alertCooldown ≤ now - t) →
      (handleAlert m db server service check now true).2.alerts = db.alerts ++
          [{ id := db.nextAlertId, serviceId := service.id, serverId := server.id,
             status := check.status,
             message := mkAlertMessage service.displayName server.name check.status
               check.errorMessage,
             sentVia := "telegram", createdAt := now }] ∧
      lookupAlert (handleAlert m db server service check now true).1.lastAlerts
          (alertKey server.id service.id) = some now ∧
      (∃ p q, mkAlertMessage service.displayName server.name check.status check.errorMessage
          = p ++ (service.displayName ++ q)) ∧
      (∃ p q, mkAlertMessage service.displayName server.name check.status check.errorMessage
          = p ++ (server.name ++ q)) ∧
      (∃ p q, mkAlertMessage service.displayName server.name check.status check.errorMessage
          = p ++ (statusString check.status ++ q)) ∧
      (check.errorMessage ≠ "" →
        ∃ p, mkAlertMessage service.displayName server.name check.status check.errorMessage
          = p ++ check.errorMessage)) := by
  refine ⟨?_, ?_⟩
  · intro h ok
    unfold handleAlert
    rw [if_pos h]
  · intro hne hcd
    have hcool := inCooldown_false_of_spaced m (alertKey server.id service.id) now hcd
    have hf := (handleAlert_fires m db server service check now hne hcool).1
    obtain ⟨e1, e2, e3, e4⟩ :=
      mkAlertMessage_embeds service.displayName server.name check.status check.errorMessage
    rw [hf]
    exact ⟨by simp, lookupAlert_insert_self _ _ _, e1, e2, e3, e4⟩

def srvC8 : Server :=
  { id := 2, name := "db-1", os := "linux", monitoringMode := MonitoringMode.pull,
    agentToken := "", connectionStatus := ConnectionStatus.notConnected, enabled := true,
    lastSeen := none }

def svcC8 : Service :=
  { id := 5, serverId := 2, name := "postgres", displayName := "PostgreSQL",
    description := "", enabled := true }

def chkC8 : CheckRow :=
  { serviceId := 5, status := ServiceStatus.failed, responseTime := 12,
    errorMessage := "exit 1", pid := 0, memory := 0, cpu := 0, uptime := 0 }

def dbC8 : DB :=
  { servers := [srvC8], services := [svcC8], checks := [], alerts := [],
    nextServiceId := 6, nextCheckId := 1, nextAlertId := 1 }

/-- C8 witness: a concrete failed check with an empty cooldown table persists
exactly one telegram-tagged alert row. -/
theorem alertGenerator_cases_witness :
    (handleAlert mFix dbC8 srvC8 svcC8 chkC8 77 true).2.alerts = dbC8.alerts ++
        [{ id := dbC8.nextAlertId, serviceId := svcC8.id, serverId := srvC8.id,
           status := chkC8.status,
           message := mkAlertMessage svcC8.displayName srvC8.name chkC8.status
             chkC8.errorMessage,
           sentVia := "telegram", createdAt := 77 }] :=
  ((alertGenerator_cases mFix dbC8 srvC8 svcC8 chkC8 77).2 (by decide)
    (fun t ht => by simp [mFix, lookupAlert] at ht)).1

/-! ## Claim C10 -/

def chkC10 : CheckRow :=
  { serviceId := 5, status := ServiceStatus.stopped, responseTime := 3,
    errorMessage := "", pid := 0, memory := 0, cpu := 0, uptime := 0 }

/-- C10: when persisting the alert fails, the handler leaves the whole state —
in particular the in-memory last-alert table — unchanged, so the cooldown is
not advanced and a subsequent non-running check for the same pair (at the same
or any later instant) immediately persists an alert. -/
theorem alertPersistFailure_keeps_cooldown (m : MonitorState) (db : DB) (server : Server)
    (service : Service) (check : CheckRow) (now : Int)
    (hne : check.status ≠ ServiceStatus.running)
    (hcd : ∀ t : Int, lookupAlert m.lastAlerts (alertKey server.id service.id) = some t →
      m.alertCooldown ≤ now - t) :
    handleAlert m db server service check now false = (m, db) ∧
    (∀ now2 : Int, now ≤ now2 →
      (handleAlert m db server service check now2 true).2.alerts = db.alerts ++
          [{ id := db.nextAlertId, serviceId := service.id, serverId := server.id,
             status := check.status,
             message := mkAlertMessage service.displayName server.name check.status
               check.errorMessage,
             sentVia := "telegram", createdAt := now2 }]) := by
  have hcool := inCooldown_false_of_spaced m (alertKey server.id service.id) now hcd
  refine ⟨(handleAlert_fires m db server service check now hne hcool).2, ?_⟩
  intro now2 hle
  have hcd2 : ∀ t : Int, lookupAlert m.lastAlerts (alertKey server.id service.id) = some t →
      m.alertCooldown ≤ now2 - t :=
    fun t ht => le_trans (hcd t ht) (sub_le_sub_right hle t)
  have hcool2 := inCooldown_false_of_spaced m (alertKey server.id service.id) now2 hcd2
  rw [(handleAlert_fires m db server service check now2 hne hcool2).1]
  simp

/-- C10 witness: a concrete failed persistence leaves the state untouched, and
an immediate retry at the same instant persists the alert. -/
theorem alertPersistFailure_keeps_cooldown_witness :
    handleAlert mFix dbC8 srvC8 svcC8 chkC10 40 false = (mFix, dbC8) ∧
    (handleAlert mFix dbC8 srvC8 svcC8 chkC10 40 true).2.alerts = dbC8.alerts ++
        [{ id := dbC8.nextAlertId, serviceId := svcC8.id, serverId := srvC8.id,
           status := chkC10.status,
           message := mkAlertMessage svcC8.displayName srvC8.name chkC10.status
             chkC10.errorMessage,
           sentVia := "telegram", createdAt := 40 }] :=
  ⟨(alertPersistFailure_keeps_cooldown mFix dbC8 srvC8 svcC8 chkC10 40 (by decide)
      (fun t ht => by simp [mFix, lookupAlert] at ht)).1,
   (alertPersistFailure_keeps_cooldown mFix dbC8 srvC8 svcC8 chkC10 40 (by decide)
      (fun t ht => by simp [mFix, lookupAlert] at ht)).2 40 le_rfl⟩

/-! ## Claim C9 -/

theorem sshCheckService_linux (exec : ExecOracle) (gi : InfoOracle) (server : Server)
    (nm : String) (hos : server.os = "linux") :
    sshCheckService exec gi server nm = checkLinuxService exec gi nm := by
  unfold sshCheckService
  rw [if_pos hos]

/-- C9: on a Linux pull check, the raw status-query output maps to the check
status exactly as active→running, inactive→stopped, failed→failed,
activating/deactivating→degraded, anything else→unknown; and a transport-level
failure of the remote command yields a check with status unknown carrying the
underlying error text. -/
theorem linuxPull_status_mapping (exec : ExecOracle) (gi : InfoOracle) (server : Server)
    (service : Service) (elapsed : Int) (hos : server.os = "linux") :
    (∀ out : String, exec ("systemctl is-active " ++ service.name) = Except.ok out →
      (checkServicePull exec gi server service elapsed).status =
        (if trimSpace out = "active" then ServiceStatus.running
         else if trimSpace out = "inactive" then ServiceStatus.stopped
         else if trimSpace out = "failed" then ServiceStatus.failed
         else if trimSpace out = "activating" ∨ trimSpace out = "deactivating" then
           ServiceStatus.degraded
         else ServiceStatus.unknown)) ∧
    (∀ e : String, exec ("systemctl is-active " ++ service.name) = Except.error e →
      (checkServicePull exec gi server service elapsed).status = ServiceStatus.unknown ∧
      (checkServicePull exec gi server service elapsed).errorMessage
        = "failed to check service: " ++ e ∧
      (∃ p, (checkServicePull exec gi server service elapsed).errorMessage = p ++ e)) := by
  refine ⟨?_, ?_⟩
  · intro out hok
    unfold checkServicePull
    rw [sshCheckService_linux exec gi server service.name hos]
    unfold checkLinuxService
    rw [hok]
    dsimp only
    unfold linuxStatusOf
    split_ifs <;> simp_all
  · intro e herr
    unfold checkServicePull
    rw [sshCheckService_linux exec gi server service.name hos]
    unfold checkLinuxService
    rw [herr]
    exact ⟨rfl, rfl, ⟨"failed to check service: ", rfl⟩⟩

def srvC9 : Server :=
  { id := 6, name := "lin-1", os := "linux", monitoringMode := MonitoringMode.pull,
    agentToken := "", connectionStatus := ConnectionStatus.notConnected, enabled := true,
    lastSeen := none }

def svcC9 : Service :=
  { id := 8, serverId := 6, name := "nginx.service", displayName := "nginx",
    description := "", enabled := true }

/-- An SSH oracle answering the nginx status query with `active`. -/
def execC9 : ExecOracle := fun cmd =>
  if cmd = "systemctl is-active nginx.service" then Except.ok "active\n"
  else Except.error "connection refused"

/-- An SSH oracle failing at the transport level. -/
def execC9b : ExecOracle := fun _ => Except.error "ssh: connect to host: timeout"

/-- C9 witness: `active` maps to running on a concrete check, and a concrete
transport failure yields an unknown-status check carrying the error text. -/
theorem linuxPull_status_mapping_witness :
    (checkServicePull execC9 infoUnused srvC9 svcC9 15).status = ServiceStatus.running ∧
    (checkServicePull execC9b infoUnused srvC9 svcC9 15).status = ServiceStatus.unknown ∧
    (checkServicePull execC9b infoUnused srvC9 svcC9 15).errorMessage
      = "failed to check service: ssh: connect to host: timeout" := by
  refine ⟨?_, ?_, ?_⟩
  · have h := (linuxPull_status_mapping execC9 infoUnused srvC9 svcC9 15 rfl).1
      "active\n" rfl
    rw [h]
    decide
  · exact ((linuxPull_status_mapping execC9b infoUnused srvC9 svcC9 15 rfl).2
      "ssh: connect to host: timeout" rfl).1
  · exact ((linuxPull_status_mapping execC9b infoUnused srvC9 svcC9 15 rfl).2
      "ssh: connect to host: timeout" rfl).2.1

/-! ## Claim C7 -/

@[simp] theorem createService_fst_services (db : DB) (sid : Nat) (n d de : String)
    (en : Bool) :
    (db.createService sid n d de en).1.services = db.services ++
      [{ id := db.nextServiceId, serverId := sid, name := n, displayName := d,
         description := de, enabled := en }] := rfl

@[simp] theorem createService_snd (db : DB) (sid : Nat) (n d de : String) (en : Bool) :
    (db.createService sid n d de en).2 =
      { id := db.nextServiceId, serverId := sid, name := n, displayName := d,
        description := de, enabled := en } := rfl

@[simp] theorem createService_nextCheckId (db : DB) (sid : Nat) (n d de : String)
    (en : Bool) : (db.createService sid n d de en).1.nextCheckId = db.nextCheckId := rfl

@[simp] theorem createService_nextServiceId (db : DB) (sid : Nat) (n d de : String)
    (en : Bool) :
    (db.createService sid n d de en).1.nextServiceId = db.nextServiceId + 1 := rfl

@[simp] theorem createServiceCheck_nextCheckId (db : DB) (now : Int) (c : CheckRow) :
    (db.createServiceCheck now c).nextCheckId = db.nextCheckId + 1 := rfl

@[simp] theorem createServiceCheck_nextServiceId (db : DB) (now : Int) (c : CheckRow) :
    (db.createServiceCheck now c).nextServiceId = db.nextServiceId := rfl

@[simp] theorem updateServerLastSeen_nextCheckId (db : DB) (id : Nat) (now : Int) :
    (db.updateServerLastSeen id now).nextCheckId = db.nextCheckId := rfl

@[simp] theorem updateServerLastSeen_nextServiceId (db : DB) (id : Nat) (now : Int) :
    (db.updateServerLastSeen id now).nextServiceId = db.nextServiceId := rfl

/-- The token lookup sees through the last-seen rewrite: the rewrite changes no
token, so the same server row (rewritten) is found. -/
theorem findServerByToken_idUpdate (l : List Server) (tok : String) (id0 : Nat)
    (now : Int) :
    findServerByToken (l.map fun s =>
        if s.id = id0 then
          { s with lastSeen := some now, connectionStatus := ConnectionStatus.connected }
        else s) tok
      = (findServerByToken l tok).map fun s =>
        if s.id = id0 then
          { s with lastSeen := some now, connectionStatus := ConnectionStatus.connected }
        else s := by
  unfold findServerByToken
  have hpf : ((fun s => s.agentToken == tok) ∘ fun s : Server =>
      if s.id = id0 then
        { s with lastSeen := some now, connectionStatus := ConnectionStatus.connected }
      else s) = fun s : Server => s.agentToken == tok := by
    funext s
    by_cases h : s.id = id0 <;> simp [h]
  rw [List.find?_map, hpf]

/-- The successful branch of the ingestion handler, as one equation. -/
theorem handleAgentReport_found (db : DB) (report : AgentReport) (now : Int)
    (server : Server) (h : findServerByToken db.servers report.token = some server) :
    handleAgentReport db report now
      = (DB.updateServerLastSeen
          (report.services.foldl (processReportEntry server.id now) db) server.id now,
         ApiResponse.ok) := by
  unfold handleAgentReport
  rw [h]

/-- C7: an authenticated single-entry report naming a service unknown to the
host creates exactly one Service row (enabled, display name = reported name)
and exactly one check row carrying the reported status and metrics; repeating
the identical report afterwards creates another check row for the SAME service
but no second Service row. -/
theorem push_autocreates_service_once (db : DB) (tok : String) (e : AgentServiceReport)
    (now now2 : Int) (server : Server)
    (hfind : findServerByToken db.servers tok = some server)
    (hnew : ((db.getServicesByServer server.id).find? fun s => s.name == e.name) = none) :
    (handleAgentReport db { token := tok, services := [e] } now).1.services
      = db.services ++
        [{ id := db.nextServiceId, serverId := server.id, name := e.name,
           displayName := e.name, description := "", enabled := true }] ∧
    (handleAgentReport db { token := tok, services := [e] } now).1.checks
      = db.checks ++
        [{ id := db.nextCheckId, serviceId := db.nextServiceId, status := e.status,
           responseTime := 0, errorMessage := e.errorMessage, checkedAt := now,
           pid := e.pid, memory := e.memory, cpu := e.cpu, uptime := e.uptime }] ∧
    (handleAgentReport (handleAgentReport db { token := tok, services := [e] } now).1
        { token := tok, services := [e] } now2).1.services
      = (handleAgentReport db { token := tok, services := [e] } now).1.services ∧
    (handleAgentReport (handleAgentReport db { token := tok, services := [e] } now).1
        { token := tok, services := [e] } now2).1.checks
      = (handleAgentReport db { token := tok, services := [e] } now).1.checks ++
        [{ id := db.nextCheckId + 1, serviceId := db.nextServiceId, status := e.status,
           responseTime := 0, errorMessage := e.errorMessage, checkedAt := now2,
           pid := e.pid, memory := e.memory, cpu := e.cpu, uptime := e.uptime }] := by
  have h1 : handleAgentReport db { token := tok, services := [e] } now
      = ((processReportEntry server.id now db e).updateServerLastSeen server.id now,
         ApiResponse.ok) := by
    rw [handleAgentReport_found db _ now server hfind]
    rfl
  have hp1 : processReportEntry server.id now db e
      = (db.createService server.id e.name e.name "" true).1.createServiceCheck now
          { serviceId := db.nextServiceId, status := e.status, responseTime := 0,
            errorMessage := e.errorMessage, pid := e.pid, memory := e.memory,
            cpu := e.cpu, uptime := e.uptime } := by
    unfold processReportEntry
    dsimp only
    rw [hnew]
    rfl
  have hc1 : (handleAgentReport db { token := tok, services := [e] } now).1.services
      = db.services ++
        [{ id := db.nextServiceId, serverId := server.id, name := e.name,
           displayName := e.name, description := "", enabled := true }] := by
    rw [h1]
    show ((processReportEntry server.id now db e).updateServerLastSeen
      server.id now).services = _
    rw [updateServerLastSeen_services, hp1, createServiceCheck_services,
      createService_fst_services]
  have hk1 : (handleAgentReport db { token := tok, services := [e] } now).1.checks
      = db.checks ++
        [{ id := db.nextCheckId, serviceId := db.nextServiceId, status := e.status,
           responseTime := 0, errorMessage := e.errorMessage, checkedAt := now,
           pid := e.pid, memory := e.memory, cpu := e.cpu, uptime := e.uptime }] := by
    rw [h1]
    show ((processReportEntry server.id now db e).updateServerLastSeen
      server.id now).checks = _
    rw [updateServerLastSeen_checks, hp1, createServiceCheck_checks, createService_checks]
    rfl
  have hnck : (handleAgentReport db { token := tok, services := [e] } now).1.nextCheckId
      = db.nextCheckId + 1 := by
    rw [h1]
    show ((processReportEntry server.id now db e).updateServerLastSeen
      server.id now).nextCheckId = _
    rw [updateServerLastSeen_nextCheckId, hp1, createServiceCheck_nextCheckId,
      createService_nextCheckId]
  -- the second, identical report
  have hfind2 : findServerByToken
      (handleAgentReport db { token := tok, services := [e] } now).1.servers tok
      = some (if server.id = server.id then
            { server with lastSeen := some now,
                          connectionStatus := ConnectionStatus.connected }
          else server) := by
    rw [handleAgentReport_servers db _ now server hfind, findServerByToken_idUpdate,
      hfind]
    rfl
  have hfind2' : findServerByToken
      (handleAgentReport db { token := tok, services := [e] } now).1.servers tok
      = some { server with lastSeen := some now,
                            connectionStatus := ConnectionStatus.connected } := by
    rw [hfind2, if_pos rfl]
  have hfound2 :
      ((DB.getServicesByServer
          (handleAgentReport db { token := tok, services := [e] } now).1
          server.id).find? fun s => s.name == e.name)
        = some { id := db.nextServiceId, serverId := server.id, name := e.name,
                 displayName := e.name, description := "", enabled := true } := by
    unfold DB.getServicesByServer
    rw [hc1, List.filter_append, List.find?_append]
    unfold DB.getServicesByServer at hnew
    rw [hnew]
    simp
  have h2 : handleAgentReport
        (handleAgentReport db { token := tok, services := [e] } now).1
        { token := tok, services := [e] } now2
      = (DB.updateServerLastSeen
          (processReportEntry server.id now2
            (handleAgentReport db { token := tok, services := [e] } now).1 e)
          server.id now2, ApiResponse.ok) := by
    rw [handleAgentReport_found
      (handleAgentReport db { token := tok, services := [e] } now).1 _ now2 _ hfind2']
    rfl
  have hp2 : processReportEntry server.id now2
        (handleAgentReport db { token := tok, services := [e] } now).1 e
      = DB.createServiceCheck
          (handleAgentReport db { token := tok, services := [e] } now).1 now2
          { serviceId := db.nextServiceId, status := e.status, responseTime := 0,
            errorMessage := e.errorMessage, pid := e.pid, memory := e.memory,
            cpu := e.cpu, uptime := e.uptime } := by
    unfold processReportEntry
    dsimp only
    rw [hfound2]
  refine ⟨hc1, hk1, ?_, ?_⟩
  · rw [h2]
    show ((processReportEntry server.id now2 _ e).updateServerLastSeen
      server.id now2).services = _
    rw [updateServerLastSeen_services, hp2, createServiceCheck_services]
  · rw [h2]
    show ((processReportEntry server.id now2 _ e).updateServerLastSeen
      server.id now2).checks = _
    rw [updateServerLastSeen_checks, hp2, createServiceCheck_checks, hnck]

def srvC7 : Server :=
  { id := 12, name := "edge-1", os := "linux", monitoringMode := MonitoringMode.push,
    agentToken := "t12", connectionStatus := ConnectionStatus.connected, enabled := true,
    lastSeen := some 0 }

def dbC7 : DB :=
  { servers := [srvC7], services := [], checks := [], alerts := [],
    nextServiceId := 30, nextCheckId := 40, nextAlertId := 1 }

def entC7 : AgentServiceReport :=
  { name := "vault", status := ServiceStatus.running, errorMessage := "",
    pid := 123, memory := 2048, cpu := 1, uptime := 3600 }

def reportC7 : AgentReport := { token := "t12", services := [entC7] }

/-- C7 witness: a concrete first report auto-creates the Service and one check;
the identical second report adds only a second check. -/
theorem push_autocreates_service_once_witness :
    (handleAgentReport dbC7 reportC7 10).1.services
      = dbC7.services ++
        [{ id := dbC7.nextServiceId, serverId := srvC7.id, name := entC7.name,
           displayName := entC7.name, description := "", enabled := true }] ∧
    (handleAgentReport (handleAgentReport dbC7 reportC7 10).1 reportC7 20).1.services
      = (handleAgentReport dbC7 reportC7 10).1.services :=
  ⟨(push_autocreates_service_once dbC7 "t12" entC7 10 20 srvC7 (by decide) (by decide)).1,
   (push_autocreates_service_once dbC7 "t12" entC7 10 20 srvC7 (by decide)
     (by decide)).2.2.1⟩

/-! ## Claim C3

Within the core, `handleAlert` is the only writer of the alert table and of
the cooldown table, so the sequence of its invocations — whatever mix of hosts,
services and checks the scheduler produces over any number of ticks —
determines both. The claim is an invariant over every such sequence. -/

/-- One invocation of the alert generator: the check with its owning host and
service, the wall-clock instant, and the storage outcome of the insert. -/
structure AlertEvent where
  server : Server
  service : Service
  check : CheckRow
  now : Int
  ok : Bool

/-- Apply one alert-generator invocation to the (monitor, storage) state. -/
def stepAlert (s : MonitorState × DB) (e : AlertEvent) : MonitorState × DB :=
  handleAlert s.1 s.2 e.server e.service e.check e.now e.ok

/-- Apply a sequence of alert-generator invocations. -/
def runAlerts (s : MonitorState × DB) (events : List AlertEvent) : MonitorState × DB :=
  events.foldl stepAlert s

/-- The events happen in nondecreasing wall-clock order, all at or after `t`. -/
def chronologicalFrom : Int → List AlertEvent → Prop
  | _, [] => True
  | t, e :: es => t ≤ e.now ∧ chronologicalFrom e.now es

/-- Pairwise alert spacing: two distinct alert rows for the same
(host id, service id) pair are at least `cool` apart. -/
def Spaced (cool : Int) (alerts : List Alert) : Prop :=
  alerts.Pairwise fun a1 a2 =>
    a1.serverId = a2.serverId → a1.serviceId = a2.serviceId →
      cool ≤ |a1.createdAt - a2.createdAt|

/-- The run invariant at lower time bound `t`: the configured cooldown is
constant; persisted alerts are pairwise spaced; every persisted alert's pair
key holds a cooldown entry at least as late as the alert; and no cooldown
entry lies in the future. -/
def AlertInv (cool : Int) (m : MonitorState) (db : DB) (t : Int) : Prop :=
  m.alertCooldown = cool ∧
  Spaced cool db.alerts ∧
  (∀ a ∈ db.alerts, ∃ la : Int,
    lookupAlert m.lastAlerts (alertKey a.serverId a.serviceId) = some la ∧
    a.createdAt ≤ la) ∧
  (∀ kv ∈ m.lastAlerts, kv.2 ≤ t)

theorem find?_filter_ne (l : List (String × Int)) (k k' : String) (h : k' ≠ k) :
    ((l.filter fun kv => kv.1 != k).find? fun kv => kv.1 == k')
      = l.find? fun kv => kv.1 == k' := by
  induction l with
  | nil => rfl
  | cons kv l ih =>
      by_cases hk : kv.1 = k
      · have h2 : (kv.1 == k') = false := by
          simp [hk]
          exact fun hh => h hh.symm
        have h3 : (k == k') = false := by
          simp
          exact fun hh => h hh.symm
        simp [List.filter_cons, hk, List.find?_cons, h2, h3, ih]
      · by_cases hk' : kv.1 = k'
        · simp [List.filter_cons, hk, hk', List.find?_cons, h]
        · simp [List.filter_cons, hk, List.find?_cons, hk', ih]

theorem lookupAlert_insert (l : List (String × Int)) (k k' : String) (t : Int) :
    lookupAlert (insertAlert l k t) k'
      = if k' = k then some t else lookupAlert l k' := by
  by_cases h : k' = k
  · rw [if_pos h, h]
    exact lookupAlert_insert_self l k t
  · rw [if_neg h]
    unfold lookupAlert insertAlert
    have hhead : ((k, t).1 == k') = false := by
      simp
      exact fun hh => h hh.symm
    rw [List.find?_cons_of_neg _ (by simp [hhead]), find?_filter_ne l k k' h]

/-- The alert generator either leaves the state untouched, or — only with a
non-running status, outside the cooldown window and a successful insert —
appends one alert and stamps the key. -/
theorem handleAlert_cases (m : MonitorState) (db : DB) (server : Server)
    (service : Service) (check : CheckRow) (now : Int) (ok : Bool) :
    handleAlert m db server service check now ok = (m, db) ∨
    (check.status ≠ ServiceStatus.running ∧
      inCooldown m (alertKey server.id service.id) now = false ∧
      handleAlert m db server service check now ok
        = ({ m with
              lastAlerts := insertAlert m.lastAlerts (alertKey server.id service.id) now },
           db.createAlert now service.id server.id check.status
             (mkAlertMessage service.displayName server.name check.status
               check.errorMessage) "telegram")) := by
  by_cases h1 : check.status = ServiceStatus.running
  · left
    unfold handleAlert
    rw [if_pos h1]
  · by_cases h2 : inCooldown m (alertKey server.id service.id) now = true
    · left
      unfold handleAlert
      rw [if_neg h1, if_pos h2]
    · have h2' : inCooldown m (alertKey server.id service.id) now = false :=
        Bool.eq_false_iff.mpr h2
      cases ok with
      | false => exact Or.inl (handleAlert_fires m db server service check now h1 h2').2
      | true =>
          exact Or.inr ⟨h1, h2', (handleAlert_fires m db server service check now h1 h2').1⟩

theorem alertInv_step (cool : Int) (m : MonitorState) (db : DB) (ev : AlertEvent) (t : Int)
    (hInv : AlertInv cool m db t) (ht : t ≤ ev.now) :
    AlertInv cool (stepAlert (m, db) ev).1 (stepAlert (m, db) ev).2 ev.now := by
  obtain ⟨hcool, hsp, hkey, hle⟩ := hInv
  rcases handleAlert_cases m db ev.server ev.service ev.check ev.now ev.ok with
    heq | ⟨hne, hcd, heq⟩
  · unfold stepAlert
    rw [heq]
    exact ⟨hcool, hsp, hkey, fun kv hkv => le_trans (hle kv hkv) ht⟩
  · unfold stepAlert
    rw [heq]
    have hspaced : ∀ la : Int,
        lookupAlert m.lastAlerts (alertKey ev.server.id ev.service.id) = some la →
        cool ≤ ev.now - la := by
      intro la hla
      unfold inCooldown at hcd
      rw [hla] at hcd
      simp only [decide_eq_false_iff_not, not_lt] at hcd
      rw [hcool] at hcd
      exact hcd
    have hlat : ∀ la : Int,
        lookupAlert m.lastAlerts (alertKey ev.server.id ev.service.id) = some la →
        la ≤ t := by
      intro la hla
      unfold lookupAlert at hla
      cases hfv : m.lastAlerts.find?
          (fun kv => kv.1 == alertKey ev.server.id ev.service.id) with
      | none => rw [hfv] at hla; cases hla
      | some kv =>
          rw [hfv] at hla
          simp at hla
          have hmem := List.mem_of_find?_eq_some hfv
          subst hla
          exact hle kv hmem
    refine ⟨hcool, ?_, ?_, ?_⟩
    · show Spaced cool ((db.createAlert ev.now ev.service.id ev.server.id ev.check.status
        (mkAlertMessage ev.service.displayName ev.server.name ev.check.status
          ev.check.errorMessage) "telegram").alerts)
      rw [createAlert_alerts]
      unfold Spaced
      rw [List.pairwise_append]
      refine ⟨hsp, by simp, ?_⟩
      intro a ha b hb hsrv hsvc
      rw [List.mem_singleton] at hb
      subst hb
      obtain ⟨la, hla, hac⟩ := hkey a ha
      have hkeq : alertKey a.serverId a.serviceId = alertKey ev.server.id ev.service.id := by
        rw [hsrv, hsvc]
      rw [hkeq] at hla
      have h1 := hspaced la hla
      have h2 := hlat la hla
      have hnn : (0 : Int) ≤ ev.now - a.createdAt := by omega
      rw [abs_sub_comm]
      show cool ≤ |ev.now - a.createdAt|
      rw [abs_of_nonneg hnn]
      omega
    · intro a ha
      show ∃ la : Int,
        lookupAlert (insertAlert m.lastAlerts (alertKey ev.server.id ev.service.id) ev.now)
          (alertKey a.serverId a.serviceId) = some la ∧ a.createdAt ≤ la
      rw [createAlert_alerts, List.mem_append] at ha
      rcases ha with haOld | hnew
      · obtain ⟨la, hla, hc⟩ := hkey a haOld
        by_cases hk : alertKey a.serverId a.serviceId = alertKey ev.server.id ev.service.id
        · refine ⟨ev.now, ?_, ?_⟩
          · rw [lookupAlert_insert, if_pos hk]
          · rw [hk] at hla
            exact le_trans hc (le_trans (hlat la hla) ht)
        · exact ⟨la, by rw [lookupAlert_insert, if_neg hk]; exact hla, hc⟩
      · rw [List.mem_singleton] at hnew
        subst hnew
        exact ⟨ev.now, lookupAlert_insert_self _ _ _, le_refl _⟩
    · intro kv hkv
      show kv.2 ≤ ev.now
      unfold insertAlert at hkv
      rw [List.mem_cons] at hkv
      rcases hkv with hkv | hkv
      · rw [hkv]
      · exact le_trans (hle kv (List.mem_of_mem_filter hkv)) ht

theorem runAlerts_spaced (cool : Int) :
    ∀ (events : List AlertEvent) (m : MonitorState) (db : DB) (t : Int),
      AlertInv cool m db t → chronologicalFrom t events →
      Spaced cool (runAlerts (m, db) events).2.alerts := by
  intro events
  induction events with
  | nil => exact fun m db t hInv _ => hInv.2.1
  | cons ev evs ih =>
      intro m db t hInv hchr
      obtain ⟨hte, hchr2⟩ := hchr
      have hstep := alertInv_step cool m db ev t hInv hte
      have := ih (stepAlert (m, db) ev).1 (stepAlert (m, db) ev).2 ev.now hstep hchr2
      simpa [runAlerts] using this

/-- C3: starting from a fresh monitor (empty cooldown table) and an empty
alert table, any chronological sequence of alert-generator invocations — over
any hosts, services, checks and storage outcomes — leaves the persisted
alerts pairwise spaced: two distinct alert rows for the same
(host id, service id) pair are never closer than the configured cooldown.
The cooldown key `alertKey` is built from exactly the host id and service id. -/
theorem alerts_never_closer_than_cooldown (m0 : MonitorState) (db0 : DB) (t0 : Int)
    (events : List AlertEvent)
    (hm : m0.lastAlerts = []) (hdb : db0.alerts = [])
    (hchr : chronologicalFrom t0 events) :
    Spaced m0.alertCooldown (runAlerts (m0, db0) events).2.alerts := by
  apply runAlerts_spaced m0.alertCooldown events m0 db0 t0 _ hchr
  refine ⟨rfl, ?_, ?_, ?_⟩
  · rw [hdb]
    exact List.Pairwise.nil
  · intro a ha
    rw [hdb] at ha
    cases ha
  · intro kv hkv
    rw [hm] at hkv
    cases hkv

def evC3a : AlertEvent :=
  { server := srvC8, service := svcC8, check := chkC8, now := 0, ok := true }

def evC3b : AlertEvent :=
  { server := srvC8, service := svcC8, check := chkC10, now := 100, ok := true }

/-- C3 witness: a concrete two-event run (same pair, 100s apart, 300s
cooldown) leaves the alert table pairwise spaced. -/
theorem alerts_never_closer_than_cooldown_witness :
    Spaced mFix.alertCooldown (runAlerts (mFix, dbC8) [evC3a, evC3b]).2.alerts :=
  alerts_never_closer_than_cooldown mFix dbC8 0 [evC3a, evC3b] rfl rfl
    ⟨by decide, by decide, trivial⟩

end Vigilon
